import Mathlib

/-!
# RieMap — verification of the regional geographic-data pipeline

Shallow embedding of the RieMap data portal. The frontend TypeScript
types (`frontend/src/types`) and the pure frontend functions
(`findRegionById`, `calculateZoom`, `toggleExpanded`, the latest-file
selection in `RegionCard`/`CompactRegionList`, the API client callers)
are translated directly from the source. The backend binaries
(`riemap-server`, `riemap-processor`) are declared in
`backend/Cargo.toml` but their Rust sources are not part of the tree;
the Artifact Store, Version Differ, Quality Analyzer and Job
Orchestrator are therefore modelled from the design document, each such
definition marked `Modelled from the spec:` in its doc comment.

Numbers: TypeScript `number` is embedded as `ℚ` where fractional values
occur (coordinates, scores) and as `ℕ` where the source only ever holds
counts or sizes.
-/

namespace RieMap

/-- `BoundingBox` from the API types: min/max latitude/longitude. -/
structure BoundingBox where
  min_lat : ℚ
  min_lon : ℚ
  max_lat : ℚ
  max_lon : ℚ
deriving Repr, DecidableEq

/-- `Region` from the API types. -/
structure Region where
  id : String
  name : String
  admin_level : String
  parent_id : Option String
  bounding_box : BoundingBox
  area_km2 : Option ℚ
  population : Option ℕ
  country_code : Option String
  geofabrik_url : Option String
  has_children : Bool
  provides_data_services : Bool
  created_at : String
  updated_at : String
deriving Repr, DecidableEq

/-- `DataFile.format` union: `OsmPbf | OsmXml | GeoJson`. -/
inductive FileFormat where
  | OsmPbf
  | OsmXml
  | GeoJson
deriving Repr, DecidableEq

/-- `DataFile` from the API types: one immutable versioned artifact. -/
structure DataFile where
  id : String
  region_id : String
  version : String
  file_path : String
  file_size : ℕ
  format : FileFormat
  created_at : String
  is_latest : Bool
  quality_report_id : Option String
deriving Repr, DecidableEq

/-- `QualityMetrics` from the API types: raw counts and derived score.
`custom_metrics` (an open string-keyed map) is embedded as an
association list. -/
structure QualityMetrics where
  total_nodes : ℕ
  total_ways : ℕ
  total_relations : ℕ
  tagged_nodes : ℕ
  tagged_ways : ℕ
  tagged_relations : ℕ
  completeness_score : ℚ
  geometry_errors : ℕ
  tag_errors : ℕ
  topology_errors : ℕ
  custom_metrics : List (String × ℚ)
deriving Repr, DecidableEq

/-- The `issues` summary nested in `QualityReport`. -/
structure IssueSummary where
  missing_tags : ℕ
  geometry_errors : ℕ
  topology_issues : ℕ
  outdated_data : ℕ
deriving Repr, DecidableEq

/-- `QualityReport` from the API types. -/
structure QualityReport where
  id : String
  region_id : String
  report_date : String
  completeness_score : ℚ
  accuracy_score : ℚ
  freshness_score : ℚ
  overall_score : ℚ
  issues : IssueSummary
  recommendations : List String
deriving Repr, DecidableEq

/-- `RegionTree` from the API types: a region, its nested children and
its data files. -/
inductive RegionTree where
  | node (region : Region) (children : List RegionTree) (data_files : List DataFile)
deriving Repr

/-- Projection of the `region` field. -/
def RegionTree.region : RegionTree → Region
  | .node r _ _ => r

/-- Projection of the `children` field. -/
def RegionTree.children : RegionTree → List RegionTree
  | .node _ c _ => c

/-- Projection of the `data_files` field. -/
def RegionTree.data_files : RegionTree → List DataFile
  | .node _ _ d => d

/-- `ProcessingJob.job_type` union from the API types:
`Download | Process | QualityAnalysis | Cleanup`. -/
inductive JobType where
  | Download
  | Process
  | QualityAnalysis
  | Cleanup
deriving Repr, DecidableEq

/-- The string carried on the wire for each `job_type` constructor,
exactly the literals of the TypeScript union. -/
def jobTypeString : JobType → String
  | .Download => "Download"
  | .Process => "Process"
  | .QualityAnalysis => "QualityAnalysis"
  | .Cleanup => "Cleanup"

/-- `ProcessingJob.status` union from the API types:
`Pending | Running | Completed | Failed | Cancelled`. -/
inductive JobStatus where
  | Pending
  | Running
  | Completed
  | Failed
  | Cancelled
deriving Repr, DecidableEq

/-- `ProcessingJob` from the API types. -/
structure ProcessingJob where
  id : String
  region_id : String
  job_type : JobType
  status : JobStatus
  progress : ℚ
  message : Option String
  created_at : String
  started_at : Option String
  completed_at : Option String
deriving Repr, DecidableEq

/-! ## Frontend functions translated from the source -/

/-- `toggleExpanded` from `CompactRegionList.tsx`: copy the expanded set,
delete the id when present, insert it when absent. -/
def toggleExpanded (expandedRegions : Finset String) (regionId : String) :
    Finset String :=
  if regionId ∈ expandedRegions then
    expandedRegions.erase regionId
  else
    insert regionId expandedRegions

/-- The zoom ladder of `calculateZoom` in `RegionMap.tsx`, as a function
of the larger of the two axis extents. -/
def zoomForDiff (maxDiff : ℚ) : ℤ :=
  if maxDiff > 50 then 3
  else if maxDiff > 20 then 4
  else if maxDiff > 10 then 5
  else if maxDiff > 5 then 6
  else if maxDiff > 2 then 7
  else if maxDiff > 1 then 8
  else if maxDiff > 1/2 then 9
  else 10

/-- The larger of the two axis extents of a bounding box
(`Math.max(latDiff, lonDiff)` in `calculateZoom`). -/
def maxExtent (bbox : BoundingBox) : ℚ :=
  max (bbox.max_lat - bbox.min_lat) (bbox.max_lon - bbox.min_lon)

/-- `calculateZoom` from `RegionMap.tsx`. -/
def calculateZoom (bbox : BoundingBox) : ℤ :=
  zoomForDiff (maxExtent bbox)

/-- The latest-file selection used by `RegionCard.tsx` and
`CompactRegionList.tsx`: `data_files.find(file => file.is_latest)`. -/
def findLatestFile (data_files : List DataFile) : Option DataFile :=
  data_files.find? (fun file => file.is_latest)

/-- `findRegionById` from the region page and `HomePage`: depth-first
search, head node first, then its children, then the remaining nodes. -/
def findRegionById : List RegionTree → String → Option RegionTree
  | [], _ => none
  | t :: rest, id =>
    if t.region.id = id then some t
    else
      match findRegionById t.children id with
      | some found => some found
      | none => findRegionById rest id
termination_by l _ => sizeOf l
decreasing_by
  · simp [RegionTree.children]
    cases t with
    | node r c d => simp; omega
  · simp

/-- Depth-first pre-order flattening of a forest, used to state the
search-order specification of `findRegionById`. -/
def preorderForest : List RegionTree → List RegionTree
  | [] => []
  | t :: rest => t :: (preorderForest t.children ++ preorderForest rest)
termination_by l => sizeOf l
decreasing_by
  · simp [RegionTree.children]
    cases t with
    | node r c d => simp; omega
  · simp

/-! ## Artifact Store (spec-modelled) -/

/-- Modelled from the spec: publishing demotes any prior latest
`DataFile` for the region (`is_latest` is flipped off when superseded);
the demotion step applied to one file. -/
def demoteFile (f : DataFile) : DataFile :=
  { f with is_latest := false }

/-- Modelled from the spec: the Artifact Store's `publish` step for one
region, restricted to its metadata effect on that region's list of data
files (the byte-level write-new-then-swap-pointer ordering is out of
scope here). Every previously stored file is demoted and the new file
is appended marked latest. -/
def publish (files : List DataFile) (newFile : DataFile) : List DataFile :=
  (files.map demoteFile) ++ [{ newFile with is_latest := true }]

/-- The spec invariant on one region's data files: at most one
`DataFile` has `is_latest = true`. -/
def atMostOneLatest (files : List DataFile) : Prop :=
  (files.filter (fun f => f.is_latest)).length ≤ 1

/-! ## Version Differ (spec-modelled) -/

/-- Modelled from the spec: a decoded feature with a stable identity, a
closed-classification category (by dominant tag key, with an "other"
bucket) and abstracted tag/geometry content. -/
structure Feature where
  id : ℕ
  category : String
  data : ℕ
deriving Repr, DecidableEq

/-- The set of stable feature ids of a decoded version. -/
def idsOf (fs : List Feature) : Finset ℕ :=
  (fs.map Feature.id).toFinset

/-- The set of stable feature ids of one category in a decoded
version. -/
def idsOfCat (fs : List Feature) (c : String) : Finset ℕ :=
  ((fs.filter (fun f => f.category == c)).map Feature.id).toFinset

/-- Modelled from the spec: a feature present only in `to` is added. -/
def addedCount (fromFs toFs : List Feature) : ℕ :=
  (idsOf toFs \ idsOf fromFs).card

/-- Modelled from the spec: a feature present only in `from` is
deleted. -/
def deletedCount (fromFs toFs : List Feature) : ℕ :=
  (idsOf fromFs \ idsOf toFs).card

/-- The abstracted content stored for a feature id in a version. -/
def contentAt (fs : List Feature) (i : ℕ) : Option ℕ :=
  (fs.find? (fun f => f.id == i)).map Feature.data

/-- Modelled from the spec: a feature present in both versions but with
different tag sets or geometry is modified. -/
def modifiedCount (fromFs toFs : List Feature) : ℕ :=
  ((idsOf fromFs ∩ idsOf toFs).filter
    (fun i => contentAt fromFs i ≠ contentAt toFs i)).card

/-- Per-category added tally. -/
def addedInCat (fromFs toFs : List Feature) (c : String) : ℕ :=
  (idsOfCat toFs c \ idsOfCat fromFs c).card

/-- Per-category deleted tally. -/
def deletedInCat (fromFs toFs : List Feature) (c : String) : ℕ :=
  (idsOfCat fromFs c \ idsOfCat toFs c).card

/-- Per-category modified tally. -/
def modifiedInCat (fromFs toFs : List Feature) (c : String) : ℕ :=
  ((idsOfCat fromFs c ∩ idsOfCat toFs c).filter
    (fun i => contentAt fromFs i ≠ contentAt toFs i)).card

/-- Total distinct features of a version. -/
def totalFeatures (fs : List Feature) : ℕ :=
  (idsOf fs).card

/-- Total distinct features of one category in a version. -/
def totalInCat (fs : List Feature) (c : String) : ℕ :=
  (idsOfCat fs c).card

/-- One row of `change_details` in the comparison payload
(`VersionComparison` in the comparison modal). -/
structure ChangeDetail where
  category : String
  added : ℕ
  modified : ℕ
  deleted : ℕ
deriving Repr, DecidableEq

/-- The `changes` block of the comparison payload. -/
structure ComparisonChanges where
  added_features : ℕ
  modified_features : ℕ
  deleted_features : ℕ
  total_features_from : ℕ
  total_features_to : ℕ
deriving Repr, DecidableEq

/-- The comparison payload (`VersionComparison` in the comparison
modal); the file-size and quality deltas carried alongside are metadata
copied from the two artifacts and are not recomputed here. -/
structure VersionComparison where
  region_id : String
  from_version : String
  to_version : String
  changes : ComparisonChanges
  change_details : List ChangeDetail
deriving Repr, DecidableEq

/-- The categories appearing in either version, in first-appearance
order, each once. -/
def categoriesOf (fromFs toFs : List Feature) : List String :=
  ((fromFs ++ toFs).map Feature.category).dedup

/-- Modelled from the spec: assembling the `RegionComparison` payload
from the two decoded versions. -/
def mkComparison (regionId fromV toV : String)
    (fromFs toFs : List Feature) : VersionComparison :=
  { region_id := regionId
    from_version := fromV
    to_version := toV
    changes :=
      { added_features := addedCount fromFs toFs
        modified_features := modifiedCount fromFs toFs
        deleted_features := deletedCount fromFs toFs
        total_features_from := totalFeatures fromFs
        total_features_to := totalFeatures toFs }
    change_details :=
      (categoriesOf fromFs toFs).map (fun c =>
        { category := c
          added := addedInCat fromFs toFs c
          modified := modifiedInCat fromFs toFs c
          deleted := deletedInCat fromFs toFs c }) }

/-- One stored, already-decoded version of a region's data. -/
structure VersionRecord where
  version : String
  features : List Feature
deriving Repr, DecidableEq

/-- The error taxonomy of the read/compare operations, from the spec. -/
inductive ApiError where
  | NotFound
  | NoneAvailable
  | VersionNotFound
  | InvalidOrder
  | AlreadyInProgress
deriving Repr, DecidableEq

/-- Modelled from the spec: `compare(regionId, fromVersion, toVersion)`.
Unknown region ids give `NotFound`, unknown versions `VersionNotFound`;
`fromVersion` must precede or equal `toVersion` in the Artifact Store's
(lexicographic, hence chronological) version order or the operation
fails with `InvalidOrder`. -/
def compare (regions : List (String × List VersionRecord))
    (regionId fromV toV : String) : Except ApiError VersionComparison :=
  match regions.find? (fun p => p.1 == regionId) with
  | none => .error .NotFound
  | some (_, vers) =>
    match vers.find? (fun v => v.version == fromV),
          vers.find? (fun v => v.version == toV) with
    | some fr, some toRec =>
      if toV.data < fromV.data then .error .InvalidOrder
      else .ok (mkComparison regionId fromV toV fr.features toRec.features)
    | _, _ => .error .VersionNotFound

/-! ## Quality Analyzer (spec-modelled) -/

/-- Total feature count of a metrics record. -/
def totalFeaturesM (m : QualityMetrics) : ℕ :=
  m.total_nodes + m.total_ways + m.total_relations

/-- Tagged feature count of a metrics record. -/
def taggedFeaturesM (m : QualityMetrics) : ℕ :=
  m.tagged_nodes + m.tagged_ways + m.tagged_relations

/-- Modelled from the spec: completeness = 100 × tagged / total, clamped
to [0, 100], and 0 when the denominator is 0. -/
def completenessScore (m : QualityMetrics) : ℚ :=
  if totalFeaturesM m = 0 then 0
  else min 100 (max 0 (100 * (taggedFeaturesM m : ℚ) / (totalFeaturesM m : ℚ)))

/-- Modelled from the spec: geometry plus topology errors per 1000
features (0 when there are no features). -/
def errorsPerThousand (m : QualityMetrics) : ℚ :=
  if totalFeaturesM m = 0 then 0
  else 1000 * ((m.geometry_errors : ℚ) + (m.topology_errors : ℚ)) / (totalFeaturesM m : ℚ)

/-- Documented configuration constant: the weight of the per-1000-feature
error rate in the accuracy penalty. -/
def accuracyPenaltyWeight : ℚ := 1

/-- Modelled from the spec: accuracy = 100 − weighted error penalty,
capped so it never goes negative. -/
def accuracyScore (m : QualityMetrics) : ℚ :=
  max 0 (100 - accuracyPenaltyWeight * errorsPerThousand m)

/-- Documented configuration constant: the staleness threshold (in days)
of the freshness decay. -/
def stalenessThreshold : ℚ := 365

/-- Documented configuration constant: the floor the freshness score
decays to at or beyond the staleness threshold. -/
def freshnessFloor : ℚ := 0

/-- Modelled from the spec: freshness is a monotonic decay of the age of
the source data, 100 at age 0, reaching the floor at the threshold. -/
def freshnessScore (ageDays : ℚ) : ℚ :=
  max freshnessFloor (100 - 100 * ageDays / stalenessThreshold)

/-- Documented configuration constant: the fixed weights of the overall
score (completeness, accuracy, freshness). -/
def overallWeights : ℚ × ℚ × ℚ := (1/3, 1/3, 1/3)

/-- Modelled from the spec: overall = fixed-weight average of the three
scores. -/
def overallScore (completeness accuracy freshness : ℚ) : ℚ :=
  overallWeights.1 * completeness + overallWeights.2.1 * accuracy +
    overallWeights.2.2 * freshness

/-- Modelled from the spec: the ordered threshold rules generating
recommendations; every matching rule's message is included. -/
def recommendationRules : List ((QualityMetrics → Bool) × String) :=
  [(fun m => decide (completenessScore m < 70),
    "high missing-tag rate: consider tag-completion pass"),
   (fun m => decide (0 < m.geometry_errors),
    "geometry errors present: run a geometry validation pass"),
   (fun m => decide (0 < m.topology_errors),
    "topology issues present: run a topology repair pass")]

/-- All messages of the matching recommendation rules, in rule order. -/
def recommendationsFor (m : QualityMetrics) : List String :=
  (recommendationRules.filter (fun rule => rule.1 m)).map (fun rule => rule.2)

/-- Modelled from the spec: `analyze(DecodedDataset, region)` producing
the immutable `QualityReport` for one artifact, given the metrics folded
from the decoded stream and the artifact's age in days. -/
def analyze (reportId : String) (m : QualityMetrics) (region : Region)
    (ageDays : ℚ) (reportDate : String) : QualityReport :=
  { id := reportId
    region_id := region.id
    report_date := reportDate
    completeness_score := completenessScore m
    accuracy_score := accuracyScore m
    freshness_score := freshnessScore ageDays
    overall_score :=
      overallScore (completenessScore m) (accuracyScore m) (freshnessScore ageDays)
    issues :=
      { missing_tags := totalFeaturesM m - taggedFeaturesM m
        geometry_errors := m.geometry_errors
        topology_issues := m.topology_errors
        outdated_data := if stalenessThreshold < ageDays then 1 else 0 }
    recommendations := recommendationsFor m }

/-! ## Quality-report read operation -/

/-- Modelled from the spec: the backend read operation behind
`GET /reports/:reportId` — fetch a quality report by report id,
`NotFound` when the report id is unknown. -/
def getQualityReport (reports : List QualityReport) (reportId : String) :
    Except ApiError QualityReport :=
  match reports.find? (fun r => r.id == reportId) with
  | some r => .ok r
  | none => .error .NotFound

/-- `loadQualityReport` from `QualityReportModal.tsx`: the modal calls
`api.getQualityReport(regionId)`, passing its `regionId` prop as the
identifier. -/
def loadQualityReport (reports : List QualityReport) (regionId : String) :
    Except ApiError QualityReport :=
  getQualityReport reports regionId

/-! ## Job Orchestrator (spec-modelled) -/

/-- Modelled from the spec: the per-job transition relation
Pending → Running → one of Completed, Failed, Cancelled. -/
inductive JobStep : JobStatus → JobStatus → Prop where
  | start : JobStep .Pending .Running
  | complete : JobStep .Running .Completed
  | fail : JobStep .Running .Failed
  | cancel : JobStep .Running .Cancelled

/-- The terminal statuses of the job state machine. -/
def isTerminal : JobStatus → Bool
  | .Completed => true
  | .Failed => true
  | .Cancelled => true
  | _ => false

/-- Whether some job of the region is currently `Running` — the
admission-control lookup, keyed by region id. -/
def hasRunningJob (jobs : List ProcessingJob) (regionId : String) : Bool :=
  jobs.any (fun j => j.region_id == regionId && j.status == JobStatus.Running)

/-- Modelled from the spec: the freshly admitted job handle returned by
`requestProcessing`, in the only initial status, `Pending`. -/
def newJob (regionId newId createdAt : String) : ProcessingJob :=
  { id := newId
    region_id := regionId
    job_type := .Download
    status := .Pending
    progress := 0
    message := none
    created_at := createdAt
    started_at := none
    completed_at := none }

/-- Modelled from the spec: `requestProcessing(regionId)` — rejected
with `AlreadyInProgress` when the region already has a Running job,
otherwise a new `Pending` job is admitted and returned. -/
def requestProcessing (jobs : List ProcessingJob)
    (regionId newId createdAt : String) :
    Except ApiError (ProcessingJob × List ProcessingJob) :=
  if hasRunningJob jobs regionId then .error .AlreadyInProgress
  else .ok (newJob regionId newId createdAt, jobs ++ [newJob regionId newId createdAt])

/-! ## Demonstration data used by the witnesses -/

/-- A concrete region used by the closed witnesses. -/
def mkDemoRegion (rid : String) : Region :=
  { id := rid
    name := rid
    admin_level := "Country"
    parent_id := none
    bounding_box := ⟨0, 0, 1, 1⟩
    area_km2 := none
    population := none
    country_code := none
    geofabrik_url := none
    has_children := false
    provides_data_services := true
    created_at := ""
    updated_at := "" }

/-- A concrete quality report used by the closed witnesses. -/
def demoReport : QualityReport :=
  { id := "report-1"
    region_id := "germany"
    report_date := "2024-01-01"
    completeness_score := 90
    accuracy_score := 95
    freshness_score := 80
    overall_score := 88
    issues := ⟨1, 2, 3, 0⟩
    recommendations := [] }

/-! ## Theorems -/

/-- Helper: a filtered list of length at most one holds at most one
matching element. -/
theorem filter_le_one_unique {α : Type _} {p : α → Bool} {l : List α}
    (h : (l.filter p).length ≤ 1) {a b : α} (ha : a ∈ l) (hpa : p a = true)
    (hb : b ∈ l) (hpb : p b = true) : a = b := by
  have ha2 : a ∈ l.filter p := List.mem_filter.mpr ⟨ha, hpa⟩
  have hb2 : b ∈ l.filter p := List.mem_filter.mpr ⟨hb, hpb⟩
  cases hfl : l.filter p with
  | nil => rw [hfl] at ha2; exact absurd ha2 (List.not_mem_nil a)
  | cons x tail =>
    cases tail with
    | nil =>
      rw [hfl] at ha2 hb2
      simp only [List.mem_singleton] at ha2 hb2
      rw [ha2, hb2]
    | cons y t2 =>
      rw [hfl] at h
      simp at h

/-- C10: one application of `toggleExpanded` flips exactly the toggled
id's membership in the expanded set, leaves every other id's membership
unchanged, and applying it twice with the same id restores the original
set. -/
theorem toggleExpanded_spec (s : Finset String) (id : String) :
    (id ∈ toggleExpanded s id ↔ id ∉ s) ∧
    (∀ j, j ≠ id → (j ∈ toggleExpanded s id ↔ j ∈ s)) ∧
    toggleExpanded (toggleExpanded s id) id = s := by
  by_cases h : id ∈ s
  · refine ⟨?_, ?_, ?_⟩
    · simp [toggleExpanded, h]
    · intro j hj
      simp [toggleExpanded, h, Finset.mem_erase, hj]
    · simp [toggleExpanded, h, Finset.not_mem_erase, Finset.insert_erase h]
  · refine ⟨?_, ?_, ?_⟩
    · simp [toggleExpanded, h]
    · intro j hj
      simp [toggleExpanded, h, Finset.mem_insert, hj]
    · simp [toggleExpanded, h, Finset.mem_insert_self, Finset.erase_insert h]

/-- C10 witness: toggling "b" leaves the membership of "a" unchanged. -/
theorem toggleExpanded_spec_witness :
    "a" ∈ toggleExpanded {"a"} "b" ↔ "a" ∈ ({"a"} : Finset String) :=
  (toggleExpanded_spec {"a"} "b").2.1 "a" (by decide)

set_option maxHeartbeats 1600000 in
/-- Helper: the zoom ladder is antitone in the extent. -/
theorem zoomForDiff_antitone {d1 d2 : ℚ} (h : d2 ≤ d1) :
    zoomForDiff d1 ≤ zoomForDiff d2 := by
  unfold zoomForDiff
  split_ifs <;> first | omega | (exfalso; linarith)

/-- C9: `calculateZoom` always returns an integer between 3 and 10, and
is monotonically non-increasing in the box's larger axis extent. -/
theorem calculateZoom_spec (b1 b2 : BoundingBox) :
    (3 ≤ calculateZoom b1 ∧ calculateZoom b1 ≤ 10) ∧
    (maxExtent b2 ≤ maxExtent b1 → calculateZoom b1 ≤ calculateZoom b2) := by
  constructor
  · unfold calculateZoom zoomForDiff
    split_ifs <;> omega
  · intro h
    exact zoomForDiff_antitone h

/-- C9 witness: a 60-degree-wide box zooms out at least as far as a
1-degree-wide box. -/
theorem calculateZoom_spec_witness :
    calculateZoom ⟨0, 0, 60, 60⟩ ≤ calculateZoom ⟨0, 0, 1, 1⟩ :=
  (calculateZoom_spec ⟨0, 0, 60, 60⟩ ⟨0, 0, 1, 1⟩).2 (by norm_num [maxExtent])

/-- C7 counterexample: `Process` is a job type of the code's union but
its wire string is not among the four values the claim lists
(Download, Decode, QualityAnalysis, Cleanup). -/
theorem jobType_claim_counterexample :
    jobTypeString JobType.Process ∉ ["Download", "Decode", "QualityAnalysis", "Cleanup"] := by
  decide

/-- C7 (amended): every job type is one of exactly the four values
Download, Process, QualityAnalysis, Cleanup, and no other value
appears. -/
theorem jobType_values (jt : JobType) :
    jobTypeString jt ∈ ["Download", "Process", "QualityAnalysis", "Cleanup"] ∧
    (jt = .Download ∨ jt = .Process ∨ jt = .QualityAnalysis ∨ jt = .Cleanup) := by
  cases jt <;> simp [jobTypeString]

/-- C6: the report read operation is keyed by report id — fetching the
known report id succeeds — but `loadQualityReport` in the modal passes
the region id as the identifier, so for a region that does have a report
the fetch returns `NotFound`. -/
theorem qualityReport_fetch_bug :
    getQualityReport [demoReport] "report-1" = .ok demoReport ∧
    demoReport.region_id = "germany" ∧
    loadQualityReport [demoReport] "germany" = .error .NotFound := by
  refine ⟨rfl, rfl, rfl⟩

/-- A concrete latest data file used by the C1 witness. -/
def demoLatestFile : DataFile :=
  { id := "f1"
    region_id := "saxony"
    version := "2024-01-01"
    file_path := "saxony/2024-01-01.osm.pbf"
    file_size := 10
    format := .OsmPbf
    created_at := "2024-01-01"
    is_latest := true
    quality_report_id := none }

/-- C1: the Artifact Store's publish step leaves at most one latest
`DataFile` per region at every observation point, and under that
invariant the consumers' first-match search
`data_files.find(file => file.is_latest)` returns the unique latest
artifact. -/
theorem latest_unique_spec :
    (∀ files newFile, atMostOneLatest (publish files newFile)) ∧
    (∀ files f, atMostOneLatest files → findLatestFile files = some f →
      f.is_latest = true ∧ ∀ g ∈ files, g.is_latest = true → g = f) := by
  constructor
  · intro files newFile
    unfold atMostOneLatest publish
    rw [List.filter_append]
    have h1 : (files.map demoteFile).filter (fun f => f.is_latest) = [] := by
      rw [List.filter_eq_nil_iff]
      intro a ha
      rcases List.mem_map.mp ha with ⟨b, _, rfl⟩
      simp [demoteFile]
    rw [h1]
    simp
  · intro files f hinv hfind
    have hmem : f ∈ files := List.mem_of_find?_eq_some hfind
    have hp : f.is_latest = true := by
      have := List.find?_some hfind
      simpa using this
    refine ⟨hp, ?_⟩
    intro g hg hgl
    exact filter_le_one_unique hinv hg hgl hmem hp

/-- C1 witness: on a store holding one latest file, the invariant and
the find-first selection both hold; applying the theorem there shows the
selected file is latest. -/
theorem latest_unique_spec_witness : demoLatestFile.is_latest = true :=
  (latest_unique_spec.2 [demoLatestFile] demoLatestFile (Nat.le_refl 1) rfl).1

/-- C4: `Pending` is the only initial job status — `requestProcessing`
admits a new job in `Pending` when the region has no running job — the
transition relation allows only Pending → Running and
Running → Completed/Failed/Cancelled, the three terminal statuses have
no outgoing transition, and the Running and terminal statuses are in
fact reachable from Pending. -/
theorem jobStateMachine_spec :
    (∀ jobs regionId newId createdAt job jobs2,
      hasRunningJob jobs regionId = false →
      requestProcessing jobs regionId newId createdAt = .ok (job, jobs2) →
      job.status = .Pending) ∧
    (∀ s s2, JobStep s s2 →
      (s = .Pending ∧ s2 = .Running) ∨
      (s = .Running ∧ (s2 = .Completed ∨ s2 = .Failed ∨ s2 = .Cancelled))) ∧
    (∀ s s2, isTerminal s = true → ¬ JobStep s s2) ∧
    (JobStep .Pending .Running ∧ JobStep .Running .Completed ∧
      JobStep .Running .Failed ∧ JobStep .Running .Cancelled) := by
  refine ⟨?_, ?_, ?_, .start, .complete, .fail, .cancel⟩
  · intro jobs regionId newId createdAt job jobs2 hrun hreq
    unfold requestProcessing at hreq
    rw [hrun] at hreq
    simp at hreq
    rw [← hreq.1]
    rfl
  · intro s s2 h
    cases h <;> simp
  · intro s s2 hterm h
    cases h <;> simp [isTerminal] at hterm

/-- C4 witness: requesting processing for region "X" on an empty job
table yields a job whose status is `Pending`. -/
theorem jobStateMachine_spec_witness : (newJob "X" "job-1" "t0").status = .Pending :=
  jobStateMachine_spec.1 [] "X" "job-1" "t0" (newJob "X" "job-1" "t0")
    ([] ++ [newJob "X" "job-1" "t0"]) rfl rfl

/-- A concrete all-tagged, error-free metrics record used by the C5
witness. -/
def demoMetrics : QualityMetrics :=
  { total_nodes := 3
    total_ways := 2
    total_relations := 1
    tagged_nodes := 3
    tagged_ways := 2
    tagged_relations := 1
    completeness_score := 0
    geometry_errors := 0
    tag_errors := 0
    topology_errors := 0
    custom_metrics := [] }

/-- C5: `analyze` reports as completeness 100 × tagged / total clamped
to [0, 100], 0 when the total feature count is 0; on an all-tagged,
error-free dataset both completeness and accuracy are 100. -/
theorem analyze_completeness_spec (reportId : String) (m : QualityMetrics)
    (region : Region) (ageDays : ℚ) (reportDate : String) :
    (analyze reportId m region ageDays reportDate).completeness_score =
      completenessScore m ∧
    (totalFeaturesM m = 0 → completenessScore m = 0) ∧
    (totalFeaturesM m ≠ 0 →
      completenessScore m =
        min 100 (max 0 (100 * (taggedFeaturesM m : ℚ) / (totalFeaturesM m : ℚ)))) ∧
    (0 ≤ completenessScore m ∧ completenessScore m ≤ 100) ∧
    (taggedFeaturesM m = totalFeaturesM m → totalFeaturesM m ≠ 0 →
      m.geometry_errors = 0 → m.topology_errors = 0 →
      (analyze reportId m region ageDays reportDate).completeness_score = 100 ∧
      (analyze reportId m region ageDays reportDate).accuracy_score = 100) := by
  refine ⟨rfl, ?_, ?_, ⟨?_, ?_⟩, ?_⟩
  · intro h
    simp [completenessScore, h]
  · intro h
    simp [completenessScore, h]
  · unfold completenessScore
    split_ifs
    · norm_num
    · exact le_min (by norm_num) (le_max_left 0 _)
  · unfold completenessScore
    split_ifs
    · norm_num
    · exact min_le_left 100 _
  · intro htag htot hge hte
    have hcast : (totalFeaturesM m : ℚ) ≠ 0 := Nat.cast_ne_zero.mpr htot
    constructor
    · show completenessScore m = 100
      unfold completenessScore
      rw [if_neg htot, htag, mul_div_assoc, div_self hcast, mul_one]
      norm_num
    · show accuracyScore m = 100
      unfold accuracyScore errorsPerThousand accuracyPenaltyWeight
      rw [if_neg htot, hge, hte]
      norm_num

/-- C5 witness: on a concrete all-tagged, error-free dataset the
analyzed report scores completeness 100 and accuracy 100. -/
theorem analyze_completeness_spec_witness :
    (analyze "r1" demoMetrics (mkDemoRegion "saxony") 0 "2024-01-01").completeness_score = 100 ∧
    (analyze "r1" demoMetrics (mkDemoRegion "saxony") 0 "2024-01-01").accuracy_score = 100 :=
  (analyze_completeness_spec "r1" demoMetrics (mkDemoRegion "saxony") 0
    "2024-01-01").2.2.2.2 rfl (by decide) rfl rfl

/-- Helper: the add/delete conservation identity for any two id sets. -/
theorem card_conservation (s t : Finset ℕ) :
    s.card + (t \ s).card = t.card + (s \ t).card := by
  rw [add_comm s.card, add_comm t.card, Finset.card_sdiff_add_card,
    Finset.card_sdiff_add_card, Finset.union_comm]

/-- The `from`-version features of the C2 witness. -/
def demoFromFeatures : List Feature :=
  [⟨1, "roads", 0⟩, ⟨2, "buildings", 5⟩]

/-- The `to`-version features of the C2 witness. -/
def demoToFeatures : List Feature :=
  [⟨1, "roads", 1⟩, ⟨3, "roads", 7⟩]

/-- The stored versions shared by the C2 and C3 witnesses. -/
def demoRegions : List (String × List VersionRecord) :=
  [("saxony", [⟨"2023-12-01", demoFromFeatures⟩, ⟨"2024-01-01", demoToFeatures⟩])]

/-- C2: every valid comparison `compare` produces satisfies
total_features_from + added = total_features_to + deleted, and the
per-category tallies it writes into `change_details` satisfy the same
identity against the per-category totals, for every category. -/
theorem compare_conservation :
    (∀ regions regionId fromV toV comp,
      compare regions regionId fromV toV = .ok comp →
      comp.changes.total_features_from + comp.changes.added_features =
        comp.changes.total_features_to + comp.changes.deleted_features) ∧
    (∀ fromFs toFs c,
      totalInCat fromFs c + addedInCat fromFs toFs c =
        totalInCat toFs c + deletedInCat fromFs toFs c) := by
  constructor
  · intro regions regionId fromV toV comp h
    unfold compare at h
    split at h
    · simp at h
    · split at h
      · split at h
        · simp at h
        · rw [Except.ok.injEq] at h
          rw [← h]
          exact card_conservation (idsOf _) (idsOf _)
      · simp at h
  · intro fromFs toFs c
    exact card_conservation (idsOfCat fromFs c) (idsOfCat toFs c)

/-- C2 witness: the comparison of the two demonstration versions (two
features each, one id shared) conserves features: 2 + 1 = 2 + 1. -/
theorem compare_conservation_witness :
    (mkComparison "saxony" "2023-12-01" "2024-01-01" demoFromFeatures
      demoToFeatures).changes.total_features_from +
    (mkComparison "saxony" "2023-12-01" "2024-01-01" demoFromFeatures
      demoToFeatures).changes.added_features =
    (mkComparison "saxony" "2023-12-01" "2024-01-01" demoFromFeatures
      demoToFeatures).changes.total_features_to +
    (mkComparison "saxony" "2023-12-01" "2024-01-01" demoFromFeatures
      demoToFeatures).changes.deleted_features :=
  compare_conservation.1 demoRegions "saxony" "2023-12-01" "2024-01-01" _ rfl

/-- C3: when both versions of a known region are found and `fromVersion`
chronologically follows `toVersion`, `compare` fails with `InvalidOrder`
(so no sign-flipped comparison is returned); and whenever `fromVersion`
precedes or equals `toVersion`, `compare` never raises `InvalidOrder`,
whatever else it returns. -/
theorem compare_order_spec (regions : List (String × List VersionRecord))
    (regionId fromV toV : String) :
    (∀ rp frRec toRec,
      regions.find? (fun p => p.1 == regionId) = some rp →
      rp.2.find? (fun v => v.version == fromV) = some frRec →
      rp.2.find? (fun v => v.version == toV) = some toRec →
      toV < fromV →
      compare regions regionId fromV toV = .error .InvalidOrder) ∧
    (fromV ≤ toV → compare regions regionId fromV toV ≠ .error .InvalidOrder) := by
  constructor
  · intro rp frRec toRec hr hfrom hto hlt
    obtain ⟨rname, vers⟩ := rp
    dsimp only at hfrom hto
    unfold compare
    simp only [hr, hfrom, hto]
    exact if_pos (String.lt_iff_toList_lt.mp hlt)
  · intro hle hcontra
    unfold compare at hcontra
    split at hcontra
    · simp at hcontra
    · split at hcontra
      · split at hcontra
        · rename_i hlt
          exact absurd (String.lt_iff_toList_lt.mpr hlt) (not_lt.mpr hle)
        · simp at hcontra
      · simp at hcontra

/-- C3 witness: comparing "2024-01-01" to "2023-12-01" (reversed
chronological order) for the known demonstration region returns
`InvalidOrder`. -/
theorem compare_order_spec_witness :
    compare demoRegions "saxony" "2024-01-01" "2023-12-01" = .error .InvalidOrder :=
  (compare_order_spec demoRegions "saxony" "2024-01-01" "2023-12-01").1
    ("saxony", [⟨"2023-12-01", demoFromFeatures⟩, ⟨"2024-01-01", demoToFeatures⟩])
    ⟨"2024-01-01", demoToFeatures⟩ ⟨"2023-12-01", demoFromFeatures⟩
    rfl rfl rfl (String.lt_iff_toList_lt.mpr (by decide))

/-- Helper: `findRegionById` is the first match of the depth-first
pre-order traversal. -/
theorem findRegionById_eq_preorder_find (l : List RegionTree) (id : String) :
    findRegionById l id = (preorderForest l).find? (fun t => t.region.id == id) := by
  induction l, id using findRegionById.induct with
  | case1 id => simp [findRegionById, preorderForest]
  | case2 t rest =>
    rw [preorderForest, List.find?_cons_of_pos _ (by simp)]
    simp [findRegionById]
  | case3 t rest id h found hfound ih =>
    rw [preorderForest, List.find?_cons_of_neg _ (by simp [h]),
      List.find?_append, ← ih, hfound]
    simp [findRegionById, if_neg h, hfound]
  | case4 t rest id h hnone ihc ihr =>
    rw [preorderForest, List.find?_cons_of_neg _ (by simp [h]),
      List.find?_append, ← ihc, hnone]
    simp only [findRegionById, if_neg h, hnone, Option.none_or]
    exact ihr

/-- C8: `findRegionById` returns `null` exactly when no node at any
nesting depth carries the searched id; otherwise it returns a node with
that id, namely the first match of the depth-first pre-order
traversal. -/
theorem findRegionById_spec (l : List RegionTree) (id : String) :
    findRegionById l id = (preorderForest l).find? (fun t => t.region.id == id) ∧
    (findRegionById l id = none ↔ ∀ t ∈ preorderForest l, t.region.id ≠ id) ∧
    (∀ t, findRegionById l id = some t → t.region.id = id) := by
  refine ⟨findRegionById_eq_preorder_find l id, ?_, ?_⟩
  · rw [findRegionById_eq_preorder_find l id, List.find?_eq_none]
    constructor
    · intro hall t ht
      simpa using hall t ht
    · intro hall t ht
      simpa using hall t ht
  · intro t hsome
    rw [findRegionById_eq_preorder_find l id] at hsome
    have := List.find?_some hsome
    simpa using this

/-- A concrete forest used by the C8 witness. -/
def demoForest : List RegionTree :=
  [.node (mkDemoRegion "world")
    [.node (mkDemoRegion "europe") [] []] [],
   .node (mkDemoRegion "asia") [] []]

/-- C8 witness: searching the demonstration forest for an id that occurs
nowhere in it returns `none`. -/
theorem findRegionById_spec_witness : findRegionById demoForest "america" = none :=
  (findRegionById_spec demoForest "america").2.1.mpr (by
    simp [preorderForest, demoForest, RegionTree.children, RegionTree.region, mkDemoRegion])

end RieMap
